import Mathlib

/-!
Verification of the VisionStream acquisition core (`src/backend/app.py`).

The embedding translates the constants, `open_capture`, and the monitoring
loop of `main` into Lean. Time is modelled with rationals: each read event
carries the wall-clock time it consumes, the failure backoff adds a fixed
1/50 s (= 20 ms), and the teardown adds a caller-chosen cost, so that the
timestamps sampled by the code (`time.perf_counter`) become explicit clock
values. External effects that the claims talk about (handle release, retry
sleeps, backoff sleeps, error recording, display teardown) are recorded in
action traces.
-/

namespace VisionStream

/-- Constants from `app.py` lines 12-20. -/
def RTSP_RETRY_ATTEMPTS : Nat := 3

def RTSP_RETRY_DELAY : ℚ := 2

def FPS_FRAME_COUNT : Nat := 60

def CONSEC_FAIL_MAX : Nat := 30

def EXIT_OK : Nat := 0

def EXIT_INIT_FAIL : Nat := 1

def EXIT_RUNTIME_FAIL : Nat := 2

/-- The read-failure backoff of `time.sleep(0.02)` at line 145, in seconds. -/
def BACKOFF : ℚ := 1 / 50

/-! ## ConnectionEstablisher: `open_capture` (lines 44-95) -/

/-- Python truthiness of the optional `path` argument: `not path` is true
when the argument is `None` or the empty string. -/
def pathFalsy : Option String → Bool
  | none => true
  | some p => p.isEmpty

/-- Failure classes of `open_capture`, one per distinct `logger.error`
diagnostic on a `return None` path: missing `--path` (lines 50, 56),
all RTSP attempts exhausted (line 72), invalid source string (line 76),
and the generic open failure of line 80. -/
inductive OpenFailure where
  | missingPath
  | connectionExhausted
  | invalidSourceKind
  | openFailed
  deriving DecidableEq, Repr

/-- Observable actions of `open_capture`: a `cv2.VideoCapture` construction,
a `cap.release()`, and a `time.sleep(RTSP_RETRY_DELAY)`. -/
inductive CapAction where
  | capOpen
  | capRelease
  | capSleep
  deriving DecidableEq, Repr

/-- The RTSP retry loop of lines 59-73. `opens i` tells whether the i-th
`cv2.VideoCapture` call (0-based) yields an opened handle; `idx` is the
index of the next call and `remaining` the attempts left. On success the
attempt index stands in for the returned handle. -/
def rtspTry (opens : Nat → Bool) (idx : Nat) :
    Nat → Except OpenFailure Nat × List CapAction
  | 0 => (.error .connectionExhausted, [])
  | remaining + 1 =>
    if opens idx then
      (.ok idx, [.capOpen])
    else if remaining = 0 then
      (.error .connectionExhausted, [.capOpen, .capRelease])
    else
      let rest := rtspTry opens (idx + 1) remaining
      (rest.1, .capOpen :: .capRelease :: .capSleep :: rest.2)

/-- `open_capture(source, path, logger)` (lines 44-95). The result is the
classified outcome together with the trace of capture-level actions. -/
def open_capture (source : String) (path : Option String) (opens : Nat → Bool) :
    Except OpenFailure Nat × List CapAction :=
  if source == "webcam" then
    if opens 0 then (.ok 0, [.capOpen]) else (.error .openFailed, [.capOpen])
  else if source == "file" then
    if pathFalsy path then (.error .missingPath, [])
    else if opens 0 then (.ok 0, [.capOpen]) else (.error .openFailed, [.capOpen])
  else if source == "rtsp" then
    if pathFalsy path then (.error .missingPath, [])
    else rtspTry opens 0 RTSP_RETRY_ATTEMPTS
  else
    (.error .invalidSourceKind, [])

/-! ## FrameRateEstimator (lines 114, 152-162) -/

/-- `deque(maxlen=cap).append d`: keep the most recent `cap` entries of the
appended sequence, evicting from the left. -/
def dequeAppend (cap : Nat) (w : List ℚ) (d : ℚ) : List ℚ :=
  let w2 := w ++ [d]
  w2.drop (w2.length - cap)

/-- The smoothed-FPS computation of lines 158-162:
`1 / mean` when the window is non-empty and the mean is strictly positive,
`0.0` otherwise. -/
def computeFps (w : List ℚ) : ℚ :=
  if w.isEmpty then 0
  else
    let avg := w.sum / (w.length : ℚ)
    if 0 < avg then 1 / avg else 0

/-- One estimator observation: append the duration to the window
(capacity `FPS_FRAME_COUNT`) and return the new window with the smoothed
rate. -/
def observe (w : List ℚ) (d : ℚ) : List ℚ × ℚ :=
  let w2 := dequeAppend FPS_FRAME_COUNT w d
  (w2, computeFps w2)

/-! ## HealthMonitoringLoop: the `while True` body (lines 122-196) -/

/-- Observable actions of the loop body and session teardown: the 20 ms
failure backoff (line 145), the `logger.exception` record of an unexpected
error (line 195), `cap.release()` (line 199) and `cv2.destroyAllWindows()`
(line 200). -/
inductive Action where
  | backoff
  | recordError
  | releaseCap
  | destroyWindows
  deriving DecidableEq, Repr

/-- One iteration's environment outcome. A read event carries the time the
iteration takes up to the point the code samples `time.perf_counter`
(line 152 on success); a successful read also carries the `cv2.waitKey`
result and whether the window is still visible. `interrupt` is a
`KeyboardInterrupt` arriving in the loop body, `exn` any other exception. -/
inductive Event where
  | failRead (cost : ℚ)
  | okRead (cost : ℚ) (key : Nat) (visible : Bool)
  | interrupt
  | exn
  deriving DecidableEq, Repr

/-- Mutable state of `main`'s loop: lines 114-120 plus the wall clock. -/
structure LoopState where
  consecutiveFailures : Nat
  frameCount : Nat
  clock : ℚ
  prevTime : ℚ
  startTime : ℚ
  frameDurations : List ℚ
  deriving DecidableEq, Repr

/-- State at lines 114-120: `prev_time` and `start_time` both take the
current clock, counters are zero, the duration window is empty. -/
def initState (t0 : ℚ) : LoopState :=
  { consecutiveFailures := 0, frameCount := 0, clock := t0,
    prevTime := t0, startTime := t0, frameDurations := [] }

/-- Outcome of one loop iteration: keep running, or leave the loop with an
exit code. -/
inductive StepResult where
  | running (s : LoopState)
  | stopped (s : LoopState) (code : Nat)
  deriving DecidableEq, Repr

/-- One iteration of the `while True` body (lines 123-196). -/
def step (source : String) (s : LoopState) (e : Event) : StepResult × List Action :=
  match e with
  | .failRead c =>
    let s1 := { s with clock := s.clock + c,
                       consecutiveFailures := s.consecutiveFailures + 1 }
    if source == "file" then
      (.stopped s1 EXIT_OK, [])
    else if CONSEC_FAIL_MAX ≤ s1.consecutiveFailures then
      (.stopped s1 EXIT_RUNTIME_FAIL, [])
    else
      (.running { s1 with clock := s1.clock + BACKOFF }, [.backoff])
  | .okRead c key visible =>
    let curr := s.clock + c
    let dur := curr - s.prevTime
    let s1 := { s with clock := curr,
                       consecutiveFailures := 0,
                       prevTime := curr,
                       frameDurations := dequeAppend FPS_FRAME_COUNT s.frameDurations dur,
                       frameCount := s.frameCount + 1 }
    if key &&& 255 == 113 then
      (.stopped s1 EXIT_OK, [])
    else if !visible then
      (.stopped s1 EXIT_OK, [])
    else
      (.running s1, [])
  | .interrupt => (.stopped s EXIT_OK, [])
  | .exn => (.stopped s EXIT_RUNTIME_FAIL, [.recordError])

/-- The loop state carried by a step outcome, whether the loop kept running
or stopped. -/
def StepResult.state : StepResult → LoopState
  | .running s => s
  | .stopped s _ => s

/-- Result of driving the loop over a finite event trace: the final state,
`some code` when the loop left the `while` (or was caught by the handlers
of lines 191-196) within the trace, `none` when it is still running, and
the accumulated loop actions. -/
structure RunResult where
  state : LoopState
  exit : Option Nat
  acts : List Action
  deriving DecidableEq, Repr

/-- Run the monitoring loop over a trace of iteration events. -/
def runLoop (source : String) (s : LoopState) : List Event → RunResult
  | [] => ⟨s, none, []⟩
  | e :: es =>
    match step source s e with
    | (.running s1, a) =>
      let r := runLoop source s1 es
      ⟨r.state, r.exit, a ++ r.acts⟩
    | (.stopped s1 code, a) => ⟨s1, code, a⟩

/-! ## SessionLifecycle: `main` (lines 98-207) -/

/-- The session summary reported by the `finally` block, lines 197-207. -/
structure SessionResult where
  exitCode : Nat
  frameCount : Nat
  totalTime : ℚ
  avgFps : ℚ
  acts : List Action
  deriving DecidableEq, Repr

/-- The part of `main` after a successful `open_capture`: run the loop from
the freshly initialised state and, in the `finally` block, release the
capture, destroy the display, and compute the summary. `teardownCost` is
the wall time elapsed inside `finally` before line 202 samples the clock.
`none` when the trace leaves the loop still running (the real loop is
unbounded). -/
def runSession (source : String) (t0 teardownCost : ℚ) (events : List Event) :
    Option SessionResult :=
  let r := runLoop source (initState t0) events
  match r.exit with
  | none => none
  | some code =>
    let totalTime := r.state.clock + teardownCost - t0
    some { exitCode := code,
           frameCount := r.state.frameCount,
           totalTime := totalTime,
           avgFps := if 0 < totalTime then (r.state.frameCount : ℚ) / totalTime else 0,
           acts := r.acts ++ [.releaseCap, .destroyWindows] }

/-- Top-level outcome of `main`: the process exit code and whether the
monitoring loop was entered. -/
structure MainOutcome where
  exitCode : Nat
  enteredLoop : Bool
  deriving DecidableEq, Repr

/-- `main` (lines 98-207): establish the capture; on failure exit with
`EXIT_INIT_FAIL` before creating the window or entering the loop, otherwise
run the monitored session. -/
def mainRun (source : String) (path : Option String) (opens : Nat → Bool)
    (t0 teardownCost : ℚ) (events : List Event) : Option MainOutcome :=
  match (open_capture source path opens).1 with
  | .error _ => some ⟨EXIT_INIT_FAIL, false⟩
  | .ok _ =>
    (runSession source t0 teardownCost events).map fun r => ⟨r.exitCode, true⟩

/-! ## Basic lemmas -/

theorem dequeAppend_length (cap : Nat) (w : List ℚ) (d : ℚ) :
    (dequeAppend cap w d).length = min (w.length + 1) cap := by
  simp [dequeAppend]
  omega

theorem dequeAppend_ne_nil (cap : Nat) (hcap : 0 < cap) (w : List ℚ) (d : ℚ) :
    dequeAppend cap w d ≠ [] := by
  have h := dequeAppend_length cap w d
  intro hnil
  rw [hnil] at h
  simp at h
  omega

theorem dequeAppend_length_le (w : List ℚ) (d : ℚ) :
    (dequeAppend FPS_FRAME_COUNT w d).length ≤ FPS_FRAME_COUNT := by
  rw [dequeAppend_length]
  omega

theorem foldl_dequeAppend_length_le (ds : List ℚ) (w : List ℚ)
    (hw : w.length ≤ FPS_FRAME_COUNT) :
    (ds.foldl (dequeAppend FPS_FRAME_COUNT) w).length ≤ FPS_FRAME_COUNT := by
  induction ds generalizing w with
  | nil => exact hw
  | cons d ds ih =>
    exact ih (dequeAppend FPS_FRAME_COUNT w d) (dequeAppend_length_le w d)

theorem runLoop_append_of_running (src : String) (es2 : List Event) :
    ∀ (es1 : List Event) (s s1 : LoopState) (a1 : List Action),
      runLoop src s es1 = ⟨s1, none, a1⟩ →
      runLoop src s (es1 ++ es2) =
        ⟨(runLoop src s1 es2).state, (runLoop src s1 es2).exit,
         a1 ++ (runLoop src s1 es2).acts⟩ := by
  intro es1
  induction es1 with
  | nil =>
    intro s s1 a1 h
    simp [runLoop] at h
    obtain ⟨h1, h2⟩ := h
    subst h1; subst h2
    simp
  | cons e es ih =>
    intro s s1 a1 h
    simp only [runLoop, List.cons_append] at h ⊢
    cases hstep : step src s e with
    | mk sr acts =>
      cases sr with
      | running s2 =>
        simp only [hstep] at h ⊢
        have hx := congrArg RunResult.exit h
        have hs := congrArg RunResult.state h
        have ha := congrArg RunResult.acts h
        simp at hx hs ha
        cases hr : runLoop src s2 es with
        | mk rs rx ra =>
          rw [hr] at hx hs ha
          simp at hx hs ha
          simp only [List.append_eq]
          rw [ih s2 s1 ra (by rw [hr, hs, hx])]
          rw [← ha, List.append_assoc]
      | stopped s2 code =>
        simp only [hstep] at h
        simp at h

/-- C9: the RateWindow built by any sequence of appends never holds more
than `FPS_FRAME_COUNT = 60` entries, and an append at capacity evicts
exactly the oldest entry while keeping the rest in order. -/
theorem c9_rate_window_bounded_evicts_oldest :
    (∀ ds : List ℚ,
      (ds.foldl (dequeAppend FPS_FRAME_COUNT) []).length ≤ FPS_FRAME_COUNT) ∧
    (∀ (w : List ℚ) (d : ℚ), w.length = FPS_FRAME_COUNT →
      dequeAppend FPS_FRAME_COUNT w d = w.drop 1 ++ [d]) := by
  constructor
  · intro ds
    exact foldl_dequeAppend_length_le ds [] (by simp)
  · intro w d hw
    have hw60 : w.length = 60 := hw
    have h1 : (1 : Nat) ≤ w.length := by omega
    simp [dequeAppend, hw, FPS_FRAME_COUNT, List.drop_append_of_le_length h1]

theorem c9_rate_window_bounded_evicts_oldest_witness :
    (List.replicate 60 (1 : ℚ)).length = FPS_FRAME_COUNT ∧
    dequeAppend FPS_FRAME_COUNT (List.replicate 60 (1 : ℚ)) 5 =
      (List.replicate 60 (1 : ℚ)).drop 1 ++ [5] :=
  ⟨by decide, c9_rate_window_bounded_evicts_oldest.2 _ 5 (by decide)⟩

/-- C6: one estimator observation yields `1 / mean` of the updated window
when that mean is strictly positive and `0` otherwise (for every window and
every duration, so in particular no division by zero ever occurs), a window
of size 1 is handled, and a single observed duration of `0` yields `0`. -/
theorem c6_fps_inverse_mean_no_div_zero :
    (∀ (w : List ℚ) (d : ℚ),
      (observe w d).2 =
        if 0 < (dequeAppend FPS_FRAME_COUNT w d).sum /
            ((dequeAppend FPS_FRAME_COUNT w d).length : ℚ) then
          1 / ((dequeAppend FPS_FRAME_COUNT w d).sum /
            ((dequeAppend FPS_FRAME_COUNT w d).length : ℚ))
        else 0) ∧
    (observe [] 0).1.length = 1 ∧ (observe [] 0).2 = 0 := by
  refine ⟨?_, by simp [observe, dequeAppend, FPS_FRAME_COUNT],
    by norm_num [observe, computeFps, dequeAppend, FPS_FRAME_COUNT]⟩
  intro w d
  have hne : dequeAppend FPS_FRAME_COUNT w d ≠ [] :=
    dequeAppend_ne_nil FPS_FRAME_COUNT (by decide) w d
  simp [observe, computeFps, List.isEmpty_iff, hne]

theorem runLoop_one_interrupt (src : String) (s : LoopState) :
    runLoop src s [Event.interrupt] = ⟨s, some EXIT_OK, []⟩ := rfl

theorem runLoop_one_exn (src : String) (s : LoopState) :
    runLoop src s [Event.exn] = ⟨s, some EXIT_RUNTIME_FAIL, [.recordError]⟩ := rfl

theorem runSession_eq (src : String) (t0 tc : ℚ) (es : List Event)
    (s : LoopState) (code : Nat) (a : List Action)
    (h : runLoop src (initState t0) es = ⟨s, some code, a⟩) :
    runSession src t0 tc es = some
      { exitCode := code,
        frameCount := s.frameCount,
        totalTime := s.clock + tc - t0,
        avgFps := if 0 < s.clock + tc - t0 then
            (s.frameCount : ℚ) / (s.clock + tc - t0) else 0,
        acts := a ++ [.releaseCap, .destroyWindows] } := by
  simp only [runSession, h]

/-- C4: for a file source, a `NotDelivered` read terminates the loop at
once with `EXIT_OK`, from any state (the failure ceiling is irrelevant:
`consecutiveFailures` is arbitrary, even ≥ 30), emitting no backoff. -/
theorem c4_file_first_notdelivered_exits_ok (s : LoopState) (c : ℚ)
    (rest : List Event) :
    runLoop "file" s (Event.failRead c :: rest) =
      ⟨{ s with clock := s.clock + c,
                consecutiveFailures := s.consecutiveFailures + 1 },
       some EXIT_OK, []⟩ := rfl

/-- C7: from any running point of the loop, a `KeyboardInterrupt` ends the
session with exit code `EXIT_OK = 0`, and any other exception ends it with
`EXIT_RUNTIME_FAIL = 2`, the error being recorded while the session still
returns normally. -/
theorem c7_interrupt_normal_unexpected_runtime_fail :
    ∀ (source : String) (t0 tc : ℚ) (pre : List Event) (s : LoopState)
      (a : List Action),
      runLoop source (initState t0) pre = ⟨s, none, a⟩ →
      (∃ r, runSession source t0 tc (pre ++ [Event.interrupt]) = some r ∧
        r.exitCode = EXIT_OK ∧ EXIT_OK = 0) ∧
      (∃ r, runSession source t0 tc (pre ++ [Event.exn]) = some r ∧
        r.exitCode = EXIT_RUNTIME_FAIL ∧ EXIT_RUNTIME_FAIL = 2 ∧
        Action.recordError ∈ r.acts) := by
  intro source t0 tc pre s a h
  have h1 := runLoop_append_of_running source [Event.interrupt] pre
    (initState t0) s a h
  have h2 := runLoop_append_of_running source [Event.exn] pre
    (initState t0) s a h
  rw [runLoop_one_interrupt] at h1
  rw [runLoop_one_exn] at h2
  constructor
  · exact ⟨_, runSession_eq source t0 tc _ s EXIT_OK (a ++ []) h1, rfl, rfl⟩
  · refine ⟨_, runSession_eq source t0 tc _ s EXIT_RUNTIME_FAIL
      (a ++ [.recordError]) h2, rfl, rfl, ?_⟩
    simp

theorem c7_interrupt_normal_unexpected_runtime_fail_witness :
    (∃ r, runSession "webcam" 0 0 ([] ++ [Event.interrupt]) = some r ∧
      r.exitCode = EXIT_OK ∧ EXIT_OK = 0) ∧
    (∃ r, runSession "webcam" 0 0 ([] ++ [Event.exn]) = some r ∧
      r.exitCode = EXIT_RUNTIME_FAIL ∧ EXIT_RUNTIME_FAIL = 2 ∧
      Action.recordError ∈ r.acts) :=
  c7_interrupt_normal_unexpected_runtime_fail "webcam" 0 0 [] (initState 0) [] rfl

theorem step_acts_cases (src : String) (s : LoopState) (e : Event) :
    ∀ x ∈ (step src s e).2, x = Action.backoff ∨ x = Action.recordError := by
  cases e with
  | failRead c =>
    simp only [step]
    split_ifs <;> simp
  | okRead c key vis =>
    simp only [step]
    split_ifs <;> simp
  | interrupt => simp [step]
  | exn => simp [step]

theorem runLoop_acts_cases :
    ∀ (es : List Event) (src : String) (s : LoopState) (x : Action),
      x ∈ (runLoop src s es).acts → x = .backoff ∨ x = .recordError := by
  intro es
  induction es with
  | nil => intro src s x hx; simp [runLoop] at hx
  | cons e es ih =>
    intro src s x hx
    rw [runLoop] at hx
    cases hstep : step src s e with
    | mk sr acts =>
      rw [hstep] at hx
      cases sr with
      | running s1 =>
        simp only [RunResult.acts, List.mem_append] at hx
        rcases hx with hx | hx
        · exact step_acts_cases src s e x (by rw [hstep]; exact hx)
        · exact ih src s1 x hx
      | stopped s1 code =>
        exact step_acts_cases src s e x (by rw [hstep]; exact hx)

theorem runLoop_count_releaseCap (src : String) (s : LoopState) (es : List Event) :
    (runLoop src s es).acts.count Action.releaseCap = 0 := by
  rw [List.count_eq_zero]
  intro hm
  rcases runLoop_acts_cases es src s _ hm with h | h <;> exact absurd h (by decide)

theorem runLoop_count_destroyWindows (src : String) (s : LoopState) (es : List Event) :
    (runLoop src s es).acts.count Action.destroyWindows = 0 := by
  rw [List.count_eq_zero]
  intro hm
  rcases runLoop_acts_cases es src s _ hm with h | h <;> exact absurd h (by decide)

/-- C2: whenever the monitoring loop terminates — key/window exit, file
exhaustion, interrupt, or an unexpected error — the session releases the
capture handle and the display exactly once, reports a summary whose
average fps is `frameCount / elapsed` when `elapsed > 0` and `0`
otherwise, and returns the loop's terminal exit code. -/
theorem c2_session_teardown_once_summary :
    ∀ (src : String) (t0 tc : ℚ) (es : List Event) (s : LoopState)
      (code : Nat) (a : List Action),
      runLoop src (initState t0) es = ⟨s, some code, a⟩ →
      ∃ r, runSession src t0 tc es = some r ∧
        r.exitCode = code ∧
        r.acts.count Action.releaseCap = 1 ∧
        r.acts.count Action.destroyWindows = 1 ∧
        r.frameCount = s.frameCount ∧
        r.totalTime = s.clock + tc - t0 ∧
        r.avgFps = (if 0 < r.totalTime then (s.frameCount : ℚ) / r.totalTime
          else 0) := by
  intro src t0 tc es s code a h
  have ha : a.count Action.releaseCap = 0 := by
    have := runLoop_count_releaseCap src (initState t0) es
    rwa [h] at this
  have hb : a.count Action.destroyWindows = 0 := by
    have := runLoop_count_destroyWindows src (initState t0) es
    rwa [h] at this
  refine ⟨_, runSession_eq src t0 tc es s code a h, rfl, ?_, ?_, rfl, rfl, rfl⟩
  · rw [List.count_append, ha]
    rfl
  · rw [List.count_append, hb]
    rfl

theorem c2_session_teardown_once_summary_witness :
    ∃ r, runSession "webcam" 0 0 [Event.okRead 1 113 true] = some r ∧
      r.exitCode = EXIT_OK ∧
      r.acts.count Action.releaseCap = 1 ∧
      r.acts.count Action.destroyWindows = 1 := by
  obtain ⟨r, h1, h2, h3, h4, -⟩ :=
    c2_session_teardown_once_summary "webcam" 0 0 [Event.okRead 1 113 true]
      _ EXIT_OK [] rfl
  exact ⟨r, h1, h2, h3, h4⟩

theorem runLoop_fail_run_continue (src : String) (hsrc : src ≠ "file") :
    ∀ (cs : List ℚ) (s : LoopState),
      s.consecutiveFailures + cs.length < CONSEC_FAIL_MAX →
      runLoop src s (cs.map Event.failRead) =
        ⟨{ s with clock := s.clock + cs.sum + (cs.length : ℚ) * BACKOFF,
                  consecutiveFailures := s.consecutiveFailures + cs.length },
         none, List.replicate cs.length .backoff⟩ := by
  intro cs
  induction cs with
  | nil =>
    intro s hlt
    simp [runLoop]
  | cons c cs ih =>
    intro s hlt
    have h30 : CONSEC_FAIL_MAX = 30 := rfl
    simp only [List.length_cons] at hlt
    have hbeq : (src == "file") = false := beq_eq_false_iff_ne.mpr hsrc
    have hcond : ¬ CONSEC_FAIL_MAX ≤ s.consecutiveFailures + 1 := by omega
    have hstep : step src s (Event.failRead c) =
        (.running { s with clock := s.clock + c + BACKOFF,
                           consecutiveFailures := s.consecutiveFailures + 1 },
         [.backoff]) := by
      simp [step, hbeq, hcond]
    simp only [List.map_cons, runLoop, hstep]
    rw [ih { s with clock := s.clock + c + BACKOFF,
                    consecutiveFailures := s.consecutiveFailures + 1 }
      (show s.consecutiveFailures + 1 + cs.length < CONSEC_FAIL_MAX by omega)]
    simp only [RunResult.mk.injEq, LoopState.mk.injEq, List.sum_cons,
      List.length_cons, List.replicate_succ]
    refine ⟨⟨?_, by trivial, ?_, by trivial, by trivial, by trivial⟩,
      by trivial, by trivial⟩
    · omega
    · push_cast
      ring

theorem runLoop_fail_run_stop (src : String) (hsrc : src ≠ "file") :
    ∀ (cs : List ℚ) (s : LoopState),
      s.consecutiveFailures < CONSEC_FAIL_MAX →
      CONSEC_FAIL_MAX ≤ s.consecutiveFailures + cs.length →
      ∃ s' a', runLoop src s (cs.map Event.failRead) =
          ⟨s', some EXIT_RUNTIME_FAIL, a'⟩ ∧
        s'.consecutiveFailures = CONSEC_FAIL_MAX := by
  intro cs
  induction cs with
  | nil =>
    intro s h1 h2
    simp only [List.length_nil] at h2
    omega
  | cons c cs ih =>
    intro s h1 h2
    have h30 : CONSEC_FAIL_MAX = 30 := rfl
    simp only [List.length_cons] at h2
    have hbeq : (src == "file") = false := beq_eq_false_iff_ne.mpr hsrc
    by_cases hstop : CONSEC_FAIL_MAX ≤ s.consecutiveFailures + 1
    · have hstep : step src s (Event.failRead c) =
          (.stopped { s with clock := s.clock + c,
                             consecutiveFailures := s.consecutiveFailures + 1 }
            EXIT_RUNTIME_FAIL, []) := by
        simp [step, hbeq, hstop]
      refine ⟨{ s with clock := s.clock + c,
                       consecutiveFailures := s.consecutiveFailures + 1 },
        [], ?_, ?_⟩
      · simp only [List.map_cons, runLoop, hstep]
      · show s.consecutiveFailures + 1 = CONSEC_FAIL_MAX
        omega
    · have hstep : step src s (Event.failRead c) =
          (.running { s with clock := s.clock + c + BACKOFF,
                             consecutiveFailures := s.consecutiveFailures + 1 },
           [.backoff]) := by
        simp [step, hbeq, hstop]
      obtain ⟨s', a', hrun, hcf⟩ :=
        ih { s with clock := s.clock + c + BACKOFF,
                    consecutiveFailures := s.consecutiveFailures + 1 }
          (show s.consecutiveFailures + 1 < CONSEC_FAIL_MAX by omega)
          (show CONSEC_FAIL_MAX ≤ s.consecutiveFailures + 1 + cs.length by omega)
      refine ⟨s', .backoff :: a', ?_, hcf⟩
      simp only [List.map_cons, runLoop, hstep, hrun]
      rfl

theorem step_running_cf_lt (src : String) (s : LoopState) (e : Event)
    (s1 : LoopState) (acts : List Action)
    (h : step src s e = (.running s1, acts)) :
    s1.consecutiveFailures < CONSEC_FAIL_MAX := by
  have h30 : CONSEC_FAIL_MAX = 30 := rfl
  cases e with
  | failRead c =>
    simp only [step] at h
    split_ifs at h with h1 h2
    · simp at h
    · simp at h
    · simp only [Prod.mk.injEq, StepResult.running.injEq] at h
      rw [← h.1]
      simp only [LoopState.consecutiveFailures]
      omega
  | okRead c key vis =>
    simp only [step] at h
    split_ifs at h with h1 h2
    · simp at h
    · simp at h
    · simp only [Prod.mk.injEq, StepResult.running.injEq] at h
      rw [← h.1]
      simp only [LoopState.consecutiveFailures]
      omega
  | interrupt => simp [step] at h
  | exn => simp [step] at h

theorem runLoop_running_cf_lt :
    ∀ (es : List Event) (src : String) (s0 : LoopState),
      s0.consecutiveFailures < CONSEC_FAIL_MAX →
      ∀ (s : LoopState) (a : List Action),
        runLoop src s0 es = ⟨s, none, a⟩ →
        s.consecutiveFailures < CONSEC_FAIL_MAX := by
  intro es
  induction es with
  | nil =>
    intro src s0 h0 s a h
    simp [runLoop] at h
    rw [← h.1]
    exact h0
  | cons e es ih =>
    intro src s0 h0 s a h
    simp only [runLoop] at h
    cases hstep : step src s0 e with
    | mk sr acts =>
      cases sr with
      | running s1 =>
        simp only [hstep] at h
        cases hr : runLoop src s1 es with
        | mk rs rx ra =>
          rw [hr] at h
          simp only [RunResult.mk.injEq] at h
          exact ih src s1 (step_running_cf_lt src s0 e s1 acts hstep) s ra
            (by rw [hr, h.1, h.2.1])
      | stopped s1 code =>
        simp only [hstep] at h
        simp at h

/-- C1: for a non-file source, from any running point of the loop, a run of
`CONSEC_FAIL_MAX = 30` consecutive `NotDelivered` reads terminates the loop
with `EXIT_RUNTIME_FAIL`, and `consecutiveFailures` is exactly 30 at the
moment of termination. -/
theorem c1_nonfile_thirty_failures_runtime_fail :
    ∀ (src : String) (t0 : ℚ) (pre : List Event) (cs : List ℚ)
      (s : LoopState) (a : List Action),
      src ≠ "file" →
      runLoop src (initState t0) pre = ⟨s, none, a⟩ →
      cs.length = CONSEC_FAIL_MAX →
      ∃ s' a', runLoop src s (cs.map Event.failRead) =
          ⟨s', some EXIT_RUNTIME_FAIL, a'⟩ ∧
        s'.consecutiveFailures = CONSEC_FAIL_MAX := by
  intro src t0 pre cs s a hsrc hpre hlen
  have hcf : s.consecutiveFailures < CONSEC_FAIL_MAX :=
    runLoop_running_cf_lt pre src (initState t0)
      (show (0 : ℕ) < CONSEC_FAIL_MAX by decide) s a hpre
  exact runLoop_fail_run_stop src hsrc cs s hcf (by omega)

theorem c1_nonfile_thirty_failures_runtime_fail_witness :
    ∃ s' a', runLoop "rtsp" (initState 0)
        ((List.replicate 30 (0 : ℚ)).map Event.failRead) =
        ⟨s', some EXIT_RUNTIME_FAIL, a'⟩ ∧
      s'.consecutiveFailures = CONSEC_FAIL_MAX :=
  c1_nonfile_thirty_failures_runtime_fail "rtsp" 0 [] (List.replicate 30 0)
    (initState 0) [] (by decide) rfl (by simp [CONSEC_FAIL_MAX])

theorem step_okRead_running (src : String) (s : LoopState) (c : ℚ) (key : Nat)
    (vis : Bool) (hkey : (key &&& 255 == 113) = false) (hvis : vis = true) :
    step src s (Event.okRead c key vis) =
      (.running { s with clock := s.clock + c, consecutiveFailures := 0,
                         prevTime := s.clock + c,
                         frameDurations := dequeAppend FPS_FRAME_COUNT
                           s.frameDurations (s.clock + c - s.prevTime),
                         frameCount := s.frameCount + 1 }, []) := by
  simp [step, hkey, hvis]

theorem runLoop_one_running (src : String) (s : LoopState) (e : Event)
    (s1 : LoopState) (a : List Action) (h : step src s e = (.running s1, a)) :
    runLoop src s [e] = ⟨s1, none, a⟩ := by
  simp [runLoop, h]

/-- C3 counterexample: the claim quantifies over every monitoring loop, but
for a file source a sequence of 29 failed reads followed by a success does
terminate the loop (the very first failure exits with `EXIT_OK`). -/
theorem c3_counterexample_file_source_terminates :
    (runLoop "file" (initState 0)
        (List.replicate 29 (Event.failRead 0) ++ [Event.okRead 0 0 true])).exit
      = some EXIT_OK := rfl

/-- C3 (amended to non-file sources for the consequence): on every
iteration, `consecutiveFailures` becomes `s.consecutiveFailures + 1` on an
unsuccessful read and `0` on a successful read, and for a non-file source a
run of exactly `CONSEC_FAIL_MAX − 1 = 29` failures from a point where
`consecutiveFailures = 0`, followed by one successful read (with no quit or
window-close signal), leaves the loop running with
`consecutiveFailures = 0`. -/
theorem c3_amended_cf_reset_increment_nonfile :
    (∀ (src : String) (s : LoopState) (c : ℚ),
      ((step src s (Event.failRead c)).1).state.consecutiveFailures =
        s.consecutiveFailures + 1) ∧
    (∀ (src : String) (s : LoopState) (c : ℚ) (key : Nat) (vis : Bool),
      ((step src s (Event.okRead c key vis)).1).state.consecutiveFailures
        = 0) ∧
    (∀ (src : String) (s : LoopState) (cs : List ℚ) (c : ℚ) (key : Nat)
       (vis : Bool),
      src ≠ "file" → s.consecutiveFailures = 0 →
      cs.length = CONSEC_FAIL_MAX - 1 →
      (key &&& 255 == 113) = false → vis = true →
      ∃ s' a',
        runLoop src s (cs.map Event.failRead ++ [Event.okRead c key vis]) =
          ⟨s', none, a'⟩ ∧ s'.consecutiveFailures = 0) := by
  refine ⟨?_, ?_, ?_⟩
  · intro src s c
    simp only [step]
    split_ifs <;> rfl
  · intro src s c key vis
    simp only [step]
    split_ifs <;> rfl
  · intro src s cs c key vis hsrc hcf hlen hkey hvis
    have h30 : CONSEC_FAIL_MAX = 30 := rfl
    have h29 : s.consecutiveFailures + cs.length < CONSEC_FAIL_MAX := by omega
    have hrun := runLoop_fail_run_continue src hsrc cs s h29
    have happ := runLoop_append_of_running src [Event.okRead c key vis]
      (cs.map Event.failRead) s _ _ hrun
    rw [runLoop_one_running src _ _ _ _
      (step_okRead_running src _ c key vis hkey hvis)] at happ
    exact ⟨_, _, happ, rfl⟩

theorem c3_amended_cf_reset_increment_nonfile_witness :
    ∃ s' a',
      runLoop "rtsp" (initState 0)
        ((List.replicate 29 (1 : ℚ)).map Event.failRead ++
          [Event.okRead 1 0 true]) = ⟨s', none, a'⟩ ∧
      s'.consecutiveFailures = 0 :=
  c3_amended_cf_reset_increment_nonfile.2.2 "rtsp" (initState 0)
    (List.replicate 29 1) 1 0 true (by decide) rfl
    (by simp [CONSEC_FAIL_MAX]) (by decide) rfl

theorem step_okRead_state (src : String) (s : LoopState) (c : ℚ) (key : Nat)
    (vis : Bool) :
    ((step src s (Event.okRead c key vis)).1).state =
      { s with clock := s.clock + c, consecutiveFailures := 0,
               prevTime := s.clock + c,
               frameDurations := dequeAppend FPS_FRAME_COUNT s.frameDurations
                 (s.clock + c - s.prevTime),
               frameCount := s.frameCount + 1 } := by
  simp only [step]
  split_ifs <;> rfl

theorem runLoop_one_state (src : String) (s : LoopState) (e : Event) :
    (runLoop src s [e]).state = ((step src s e).1).state := by
  rw [runLoop]
  cases hstep : step src s e with
  | mk sr a =>
    cases sr with
    | running s1 => simp [hstep, runLoop, StepResult.state]
    | stopped s1 code => simp [hstep, StepResult.state]

/-- C10: the reference timestamp `prev_time` is unchanged across failed
reads, so the duration recorded at the next delivered frame — and for the
first delivered frame, measured from loop start `t0` — is the whole elapsed
time: all failed-read costs, one 20 ms backoff per failure, and the
successful read's cost. -/
theorem c10_failure_time_folds_into_next_duration :
    ∀ (src : String) (t0 : ℚ) (cs : List ℚ) (c : ℚ) (key : Nat) (vis : Bool),
      src ≠ "file" → cs.length < CONSEC_FAIL_MAX →
      (runLoop src (initState t0) (cs.map Event.failRead)).state.prevTime
          = t0 ∧
      (runLoop src (initState t0)
          (cs.map Event.failRead ++
            [Event.okRead c key vis])).state.frameDurations
        = [cs.sum + (cs.length : ℚ) * BACKOFF + c] ∧
      (runLoop src (initState t0)
          (cs.map Event.failRead ++ [Event.okRead c key vis])).state.prevTime
        = t0 + (cs.sum + (cs.length : ℚ) * BACKOFF + c) := by
  intro src t0 cs c key vis hsrc hlen
  have h0 : (initState t0).consecutiveFailures + cs.length
      < CONSEC_FAIL_MAX := by
    show 0 + cs.length < CONSEC_FAIL_MAX
    omega
  have hrun := runLoop_fail_run_continue src hsrc cs (initState t0) h0
  have happ := runLoop_append_of_running src [Event.okRead c key vis]
    (cs.map Event.failRead) (initState t0) _ _ hrun
  refine ⟨by rw [hrun]; rfl, ?_, ?_⟩
  · rw [happ]
    simp only [runLoop_one_state, step_okRead_state]
    simp [dequeAppend, initState, FPS_FRAME_COUNT]
    try ring
  · rw [happ]
    simp only [runLoop_one_state, step_okRead_state]
    simp only [initState]
    try ring

theorem c10_failure_time_folds_into_next_duration_witness :
    (runLoop "webcam" (initState 0) ([(1 : ℚ)].map Event.failRead)).state.prevTime
        = 0 ∧
    (runLoop "webcam" (initState 0)
        ([(1 : ℚ)].map Event.failRead ++
          [Event.okRead 2 0 true])).state.frameDurations
      = [[(1 : ℚ)].sum + (([(1 : ℚ)].length : ℚ)) * BACKOFF + 2] ∧
    (runLoop "webcam" (initState 0)
        ([(1 : ℚ)].map Event.failRead ++
          [Event.okRead 2 0 true])).state.prevTime
      = 0 + ([(1 : ℚ)].sum + (([(1 : ℚ)].length : ℚ)) * BACKOFF + 2) :=
  c10_failure_time_folds_into_next_duration "webcam" 0 [1] 2 0 true
    (by decide) (by decide)

/-- C5: for an RTSP source with a non-empty path on which every open
attempt fails, `open_capture` makes exactly `RTSP_RETRY_ATTEMPTS = 3` open
attempts, releases each failed handle before the next attempt, sleeps the
fixed retry delay after each failed attempt except the last, and returns
the exhaustion failure with no handle. -/
theorem c5_rtsp_all_attempts_fail_exhausted :
    ∀ (path : Option String) (opens : Nat → Bool),
      pathFalsy path = false →
      (∀ i, i < RTSP_RETRY_ATTEMPTS → opens i = false) →
      open_capture "rtsp" path opens =
        (.error .connectionExhausted,
         [.capOpen, .capRelease, .capSleep, .capOpen, .capRelease, .capSleep,
          .capOpen, .capRelease]) ∧
      (open_capture "rtsp" path opens).2.count .capOpen
        = RTSP_RETRY_ATTEMPTS ∧
      (open_capture "rtsp" path opens).2.count .capRelease
        = RTSP_RETRY_ATTEMPTS ∧
      (open_capture "rtsp" path opens).2.count .capSleep
        = RTSP_RETRY_ATTEMPTS - 1 := by
  intro path opens hpath hfail
  have h0 := hfail 0 (by decide)
  have h1 := hfail 1 (by decide)
  have h2 := hfail 2 (by decide)
  have hmain : open_capture "rtsp" path opens =
      (.error .connectionExhausted,
       [.capOpen, .capRelease, .capSleep, .capOpen, .capRelease, .capSleep,
        .capOpen, .capRelease]) := by
    simp [open_capture, rtspTry, RTSP_RETRY_ATTEMPTS, hpath, h0, h1, h2]
  refine ⟨hmain, ?_, ?_, ?_⟩ <;> rw [hmain] <;> rfl

theorem c5_rtsp_all_attempts_fail_exhausted_witness :
    open_capture "rtsp" (some "rtsp://cam") (fun _ => false) =
      (.error .connectionExhausted,
       [.capOpen, .capRelease, .capSleep, .capOpen, .capRelease, .capSleep,
        .capOpen, .capRelease]) ∧
    (open_capture "rtsp" (some "rtsp://cam") (fun _ => false)).2.count
        CapAction.capOpen = RTSP_RETRY_ATTEMPTS ∧
    (open_capture "rtsp" (some "rtsp://cam") (fun _ => false)).2.count
        CapAction.capRelease = RTSP_RETRY_ATTEMPTS ∧
    (open_capture "rtsp" (some "rtsp://cam") (fun _ => false)).2.count
        CapAction.capSleep = RTSP_RETRY_ATTEMPTS - 1 :=
  c5_rtsp_all_attempts_fail_exhausted (some "rtsp://cam") (fun _ => false)
    rfl (fun _ _ => rfl)

/-- C8: a file or RTSP source with an absent/empty path, and any
unrecognized source kind, makes `open_capture` fail (`missingPath` or
`invalidSourceKind` respectively) with no capture action performed, and
`main` then exits with `EXIT_INIT_FAIL` without entering the monitoring
loop. -/
theorem c8_config_errors_init_fail_no_loop :
    ∀ (source : String) (path : Option String) (opens : Nat → Bool)
      (t0 tc : ℚ) (es : List Event),
      ((source = "file" ∨ source = "rtsp") ∧ pathFalsy path = true) ∨
        (source ≠ "webcam" ∧ source ≠ "file" ∧ source ≠ "rtsp") →
      ((open_capture source path opens).1 = .error .missingPath ∨
        (open_capture source path opens).1 = .error .invalidSourceKind) ∧
      (open_capture source path opens).2 = [] ∧
      mainRun source path opens t0 tc es = some ⟨EXIT_INIT_FAIL, false⟩ := by
  intro source path opens t0 tc es h
  have hcap : open_capture source path opens = (.error .missingPath, []) ∨
      open_capture source path opens = (.error .invalidSourceKind, []) := by
    rcases h with ⟨hk, hp⟩ | ⟨h1, h2, h3⟩
    · rcases hk with hk | hk <;> subst hk
      · left
        simp [open_capture, hp]
      · left
        simp [open_capture, hp]
    · right
      have b1 : (source == "webcam") = false := beq_eq_false_iff_ne.mpr h1
      have b2 : (source == "file") = false := beq_eq_false_iff_ne.mpr h2
      have b3 : (source == "rtsp") = false := beq_eq_false_iff_ne.mpr h3
      simp [open_capture, b1, b2, b3]
  rcases hcap with hcap | hcap
  · exact ⟨Or.inl (by rw [hcap]), by rw [hcap], by simp [mainRun, hcap]⟩
  · exact ⟨Or.inr (by rw [hcap]), by rw [hcap], by simp [mainRun, hcap]⟩

theorem c8_config_errors_init_fail_no_loop_witness :
    ((open_capture "file" none (fun _ => true)).1 =
        .error .missingPath ∨
      (open_capture "file" none (fun _ => true)).1 =
        .error .invalidSourceKind) ∧
    (open_capture "file" none (fun _ => true)).2 = [] ∧
    mainRun "file" none (fun _ => true) 0 0 [] =
      some ⟨EXIT_INIT_FAIL, false⟩ :=
  c8_config_errors_init_fail_no_loop "file" none (fun _ => true) 0 0 []
    (Or.inl ⟨Or.inl rfl, rfl⟩)

end VisionStream
